import Mathlib

/-!
Verification of the `mcp-dev-kit` test client (`src/client/test-client.ts`,
`src/client/errors.ts`) and the snapshot normalization helpers
(`src/matchers/snapshot.ts`), as a shallow embedding.

External collaborators (the MCP SDK session, the spawned subprocess, the JSON
parser of the runtime) are modelled as explicit outcome parameters: each façade
method takes the outcome that the protocol layer would produce, and the
embedding reproduces how the TypeScript code reacts to it.
-/

namespace MCPDevKit

/-- The single-quote character, used verbatim inside several error messages. -/
def sq : String := String.singleton (Char.ofNat 39)

/-- The opening-brace character (the first character `JSON.parse` sniffing looks for). -/
def lbrace : Char := Char.ofNat 123

/-- JavaScript `String.prototype.split('.')` over the character list, kept
structurally recursive so that concrete inputs evaluate in the kernel. -/
def splitDotChars : List Char → String → List String
  | [], acc => [acc]
  | c :: rest, acc =>
      if c = Char.ofNat 46 then acc :: splitDotChars rest "" else splitDotChars rest (acc.push c)

/-- `path.split('.')`. -/
def splitDot (s : String) : List String :=
  splitDotChars s.data ""

/-- `s.startsWith(c)` for a one-character needle: first-character comparison. -/
def startsWithChar (s : String) (c : Char) : Bool :=
  decide (s.data.head? = some c)

/-- `s.startsWith(pre)` as prefix comparison of the character lists. -/
def startsWithStr (s pre : String) : Bool :=
  pre.data.isPrefixOf s.data

/-- `s.substring(n)`: drop the first `n` characters. -/
def dropStr (s : String) (n : Nat) : String :=
  ⟨s.data.drop n⟩

/-- JSON-like runtime values (arguments, results, snapshot payloads). -/
inductive JValue where
  | null
  | bool (b : Bool)
  | num (n : Int)
  | str (s : String)
  | arr (items : List JValue)
  | obj (fields : List (String × JValue))

/-- Error codes of `MCPTestErrorCode` in `errors.ts`. -/
inductive MCPTestErrorCode where
  | CONNECTION_FAILED
  | INITIALIZATION_FAILED
  | TOOL_NOT_FOUND
  | TOOL_CALL_FAILED
  | VALIDATION_FAILED
  | ASSERTION_FAILED
  | TIMEOUT
  | NOT_CONNECTED
  | ALREADY_CONNECTED
  | RESOURCE_NOT_FOUND
  | PROMPT_NOT_FOUND
deriving DecidableEq

/-- One content item of a tool result (`ToolCallResult.content[i]` in `types.ts`). -/
structure ContentItem where
  type : String
  text : Option String
  data : Option String
  mimeType : Option String

/-- `ToolCallResult` from `types.ts`: content items plus the optional `isError` flag. -/
structure ToolCallResult where
  content : List ContentItem
  isError : Option Bool

/-- JavaScript truthiness of the optional `isError` flag (`boolean | undefined`). -/
def isErrorTruthy (r : ToolCallResult) : Bool :=
  r.isError.getD false

/-- `Tool` from `types.ts`. -/
structure Tool where
  name : String
  description : Option String
  inputSchema : JValue

/-- `Resource` from `types.ts` (fields the client passes through unmodified). -/
structure Resource where
  uri : String
  name : String
  mimeType : Option String

/-- Resource read result, treated as opaque data by the client. -/
abbrev ResourceContent := JValue

/-- `Prompt` from `types.ts`. -/
structure Prompt where
  name : String
  description : Option String

/-- Prompt fetch result, treated as opaque data by the client. -/
abbrev PromptResult := JValue

/-- The projection of `ErrorContext` (an open key-value map in `errors.ts`)
onto the keys the client code actually writes. A `none` field is an absent key. -/
structure ErrorContext where
  suggestion : Option String := none
  toolName : Option String := none
  availableTools : Option (List String) := none
  params : Option (Option JValue) := none
  result : Option ToolCallResult := none
  originalError : Option String := none
  command : Option String := none
  args : Option (List String) := none

/-- Empty context `{}`. -/
def ErrorContext.empty : ErrorContext := {}

/-- `MCPTestError`: message, stable code, context, and the `name` field each
subclass constructor assigns (standing in for the runtime class identity that
`instanceof` checks observe). -/
structure MCPTestError where
  name : String
  message : String
  code : MCPTestErrorCode
  context : ErrorContext

/-- JavaScript `x || d` on an optional string: `undefined` and `""` are falsy. -/
def jsOrStr (o : Option String) (d : String) : String :=
  match o with
  | some s => if s = "" then d else s
  | none => d

/-- `ConnectionError` constructor: code `CONNECTION_FAILED`, defaulted suggestion. -/
def ConnectionError.make (message : String) (context : ErrorContext) : MCPTestError :=
  { name := "ConnectionError"
    message := message
    code := .CONNECTION_FAILED
    context := { context with suggestion := some (jsOrStr context.suggestion
      "Check that the server command and arguments are correct, and the server starts without errors.") } }

/-- `InitializationError` constructor: code `INITIALIZATION_FAILED`, defaulted suggestion. -/
def InitializationError.make (message : String) (context : ErrorContext) : MCPTestError :=
  { name := "InitializationError"
    message := message
    code := .INITIALIZATION_FAILED
    context := { context with suggestion := some (jsOrStr context.suggestion
      "Verify the server supports MCP protocol and responds to initialize requests correctly.") } }

/-- `Array.prototype.join(', ')` as used by `ToolNotFoundError`. -/
def joinComma : List String → String
  | [] => ""
  | [x] => x
  | x :: y :: rest => x ++ ", " ++ joinComma (y :: rest)

/-- `ToolNotFoundError` constructor: builds the message from the searched name and
the available names joined with `', '`, or the literal `none` when empty. -/
def ToolNotFoundError.make (toolName : String) (availableTools : List String)
    (context : ErrorContext) : MCPTestError :=
  let availableToolsList := if availableTools.length > 0 then joinComma availableTools else "none"
  { name := "ToolNotFoundError"
    message := "Tool " ++ sq ++ toolName ++ sq ++ " not found. Available tools: " ++ availableToolsList
    code := .TOOL_NOT_FOUND
    context := { context with toolName := some toolName, availableTools := some availableTools } }

/-- `ToolCallError` constructor: code `TOOL_CALL_FAILED`, tool name recorded in
both the message and the context, defaulted suggestion. -/
def ToolCallError.make (toolName : String) (message : String) (context : ErrorContext) :
    MCPTestError :=
  { name := "ToolCallError"
    message := "Tool " ++ sq ++ toolName ++ sq ++ " call failed: " ++ message
    code := .TOOL_CALL_FAILED
    context := { context with toolName := some toolName, suggestion := some (jsOrStr context.suggestion
      "Check the tool parameters match the expected schema and the server handles the tool correctly.") } }

/-- `AssertionError` constructor: code `ASSERTION_FAILED`. -/
def AssertionError.make (message : String) (context : ErrorContext) : MCPTestError :=
  { name := "AssertionError"
    message := "Assertion failed: " ++ message
    code := .ASSERTION_FAILED
    context := context }

/-- A thrown JavaScript value as the façade observes it: either one of this
library's classified errors, or a plain `Error` carrying a message. -/
inductive JSError where
  | mcp (e : MCPTestError)
  | plain (msg : String)

/-- `toMCPTestError` from `errors.ts`: classified errors pass through; a plain
`Error` is wrapped with code `ASSERTION_FAILED` keeping its message. -/
def toMCPTestError (error : JSError) (_defaultMessage : String) : MCPTestError :=
  match error with
  | .mcp e => e
  | .plain msg =>
      { name := "MCPTestError"
        message := msg
        code := .ASSERTION_FAILED
        context := { ErrorContext.empty with originalError := some "Error" } }

/-- Negotiated server identity. -/
structure ServerInfo where
  name : String
  version : String
deriving DecidableEq

/-- `TestClientState`: the five mutable fields of `MCPTestClient.state`.
Session and transport handles are opaque, so they are modelled as `Option Unit`. -/
structure TestClientState where
  client : Option Unit
  transport : Option Unit
  initialized : Bool
  serverInfo : Option ServerInfo
  serverCapabilities : Option JValue

/-- The state a fresh client starts with: everything null / false. -/
def initialState : TestClientState :=
  { client := none, transport := none, initialized := false
    serverInfo := none, serverCapabilities := none }

/-- Client configuration (the fields that reach error contexts). -/
structure MCPTestClientConfig where
  command : String
  args : List String

/-- `isConnected()`: true iff a session handle exists and initialization finished. -/
def isConnected (st : TestClientState) : Bool :=
  st.client.isSome && st.initialized

/-- `getServerInfo()`: pure read of the cached value. -/
def getServerInfo (st : TestClientState) : Option ServerInfo :=
  st.serverInfo

/-- `getServerCapabilities()`: pure read of the cached value. -/
def getServerCapabilities (st : TestClientState) : Option JValue :=
  st.serverCapabilities

/-- `ensureConnected()`: throws a `ConnectionError` with the fixed message when
no session exists or initialization has not finished. -/
def ensureConnected (st : TestClientState) : Except MCPTestError Unit :=
  if st.client.isNone || !st.initialized then
    .error (ConnectionError.make "Not connected to server. Call connect() first." ErrorContext.empty)
  else
    .ok ()

/-- `cleanup()`: best-effort close of the session (its outcome is ignored), then
the `finally` block clears every state field. Never throws. -/
def cleanup (st : TestClientState) (closeOutcome : Except String Unit) : TestClientState :=
  let _ignored : Except String Unit := if st.client.isSome then closeOutcome else .ok ()
  { client := none, transport := none, initialized := false
    serverInfo := none, serverCapabilities := none }

/-- `disconnect()`: awaits `cleanup()` and returns normally. -/
def disconnect (st : TestClientState) (closeOutcome : Except String Unit) :
    TestClientState × Except MCPTestError Unit :=
  (cleanup st closeOutcome, .ok ())

/-- Outcome of the SDK-level `client.connect(transport)` call together with the
server identity / capability reads that follow it on success. -/
inductive ConnectOutcome where
  | success (serverVersion : Option ServerInfo) (serverCapabilities : Option JValue)
  | failure (error : JSError)

/-- `connect()`: rejects when a session already exists; otherwise installs the
transport and session, delegates the handshake, and on success atomically
records negotiated server identity and capabilities. On failure it runs
`cleanup()` (whose own outcome is swallowed) and raises a classified error:
`ConnectionError` / `InitializationError` instances pass through, everything
else is wrapped as a `ConnectionError` keeping command, args and the original
message. -/
def connect (st : TestClientState) (cfg : MCPTestClientConfig) (outcome : ConnectOutcome)
    (closeOutcome : Except String Unit) : TestClientState × Except MCPTestError Unit :=
  if st.client.isSome then
    (st, .error (ConnectionError.make "Already connected to server" ErrorContext.empty))
  else
    let stMid : TestClientState := { st with transport := some (), client := some () }
    match outcome with
    | .success serverVersion caps =>
        ({ client := some (), transport := some (), initialized := true
           serverCapabilities := caps
           serverInfo := some { name := jsOrStr (serverVersion.map (fun v => v.name)) "unknown"
                                version := jsOrStr (serverVersion.map (fun v => v.version)) "unknown" } },
         .ok ())
    | .failure err =>
        let stCleared := cleanup stMid closeOutcome
        match err with
        | .mcp e =>
            if e.name = "ConnectionError" ∨ e.name = "InitializationError" then
              (stCleared, .error e)
            else
              (stCleared, .error (ConnectionError.make "Failed to connect to server"
                { ErrorContext.empty with
                    command := some cfg.command
                    args := some cfg.args
                    originalError := some e.message }))
        | .plain msg =>
            (stCleared, .error (ConnectionError.make "Failed to connect to server"
              { ErrorContext.empty with
                  command := some cfg.command
                  args := some cfg.args
                  originalError := some msg }))

/-- `listTools()`: connect-check, then the protocol request; failures are wrapped
through `toMCPTestError` with the fixed fallback message. -/
def listTools (st : TestClientState) (proto : Except String (List Tool)) :
    Except MCPTestError (List Tool) :=
  match ensureConnected st with
  | .error e => .error e
  | .ok _ =>
      match proto with
      | .ok result => .ok result
      | .error msg => .error (toMCPTestError (.plain msg) "Failed to list tools")

/-- `callTool()`: connect-check; a result flagged `isError` is converted into a
thrown `ToolCallError` carrying the result; a protocol rejection is wrapped into
a `ToolCallError` carrying the params and the original message; an existing
`ToolCallError` is re-thrown unchanged by the catch block. -/
def callTool (st : TestClientState) (name : String) (params : Option JValue)
    (proto : Except String ToolCallResult) : Except MCPTestError ToolCallResult :=
  match ensureConnected st with
  | .error e => .error e
  | .ok _ =>
      match proto with
      | .ok result =>
          if isErrorTruthy result then
            .error (ToolCallError.make name "Tool returned an error"
              { ErrorContext.empty with result := some result })
          else
            .ok result
      | .error msg =>
          .error (ToolCallError.make name "Tool call failed"
            { ErrorContext.empty with params := some params, originalError := some msg })

/-- `listResources()`. -/
def listResources (st : TestClientState) (proto : Except String (List Resource)) :
    Except MCPTestError (List Resource) :=
  match ensureConnected st with
  | .error e => .error e
  | .ok _ =>
      match proto with
      | .ok result => .ok result
      | .error msg => .error (toMCPTestError (.plain msg) "Failed to list resources")

/-- `readResource(uri)`. -/
def readResource (st : TestClientState) (uri : String) (proto : Except String ResourceContent) :
    Except MCPTestError ResourceContent :=
  match ensureConnected st with
  | .error e => .error e
  | .ok _ =>
      match proto with
      | .ok result => .ok result
      | .error msg => .error (toMCPTestError (.plain msg) ("Failed to read resource: " ++ uri))

/-- `listPrompts()`. -/
def listPrompts (st : TestClientState) (proto : Except String (List Prompt)) :
    Except MCPTestError (List Prompt) :=
  match ensureConnected st with
  | .error e => .error e
  | .ok _ =>
      match proto with
      | .ok result => .ok result
      | .error msg => .error (toMCPTestError (.plain msg) "Failed to list prompts")

/-- `getPrompt(name, params?)`. -/
def getPrompt (st : TestClientState) (name : String) (proto : Except String PromptResult) :
    Except MCPTestError PromptResult :=
  match ensureConnected st with
  | .error e => .error e
  | .ok _ =>
      match proto with
      | .ok result => .ok result
      | .error msg => .error (toMCPTestError (.plain msg) ("Failed to get prompt: " ++ name))

/-- `expectToolExists(name)`: lists tools, linear-searches by exact name, raises
`ToolNotFoundError` with the available names when absent. -/
def expectToolExists (st : TestClientState) (protoList : Except String (List Tool))
    (name : String) : Except MCPTestError Tool :=
  match listTools st protoList with
  | .error e => .error e
  | .ok tools =>
      match tools.find? (fun t => decide (t.name = name)) with
      | some tool => .ok tool
      | none => .error (ToolNotFoundError.make name (tools.map (fun t => t.name)) ErrorContext.empty)

/-- The three shapes `expectToolCallSuccess` can hand back to the caller. -/
inductive Payload where
  | json (v : JValue)
  | text (s : String)
  | whole (r : ToolCallResult)

/-- `expectToolCallSuccess(name, params)`: calls the tool; a returned result still
flagged `isError` would raise an `AssertionError`; otherwise a single text content
item is JSON-parsed when it starts with a brace or bracket (falling back to the
raw text), and any other shape is returned whole. `jsonParse` stands for the
runtime `JSON.parse` inside its try/catch. -/
def expectToolCallSuccess (st : TestClientState) (name : String) (params : Option JValue)
    (proto : Except String ToolCallResult) (jsonParse : String → Option JValue) :
    Except MCPTestError Payload :=
  match callTool st name params proto with
  | .error e => .error e
  | .ok result =>
      if isErrorTruthy result then
        .error (AssertionError.make
          ("Expected tool " ++ sq ++ name ++ sq ++ " to succeed, but it returned an error")
          { ErrorContext.empty with
              toolName := some name
              params := some params
              result := some result })
      else
        match result.content with
        | [item] =>
            if item.type = "text" then
              let text := item.text.getD ""
              if startsWithChar text lbrace || startsWithChar text (Char.ofNat 91) then
                match jsonParse text with
                | some v => .ok (.json v)
                | none => .ok (.text text)
              else
                .ok (.text text)
            else
              .ok (.whole result)
        | _ => .ok (.whole result)

/-- What `expectToolCallError` fulfills with: either the `Error` it constructs
itself, or the error it caught from the tool call. -/
inductive CaughtError where
  | made (msg : String)
  | caught (e : MCPTestError)

/-- `expectToolCallError(name, params)`: a thrown non-`AssertionError` is caught
and returned as the expected failure; a normally-returned non-error result raises
an `AssertionError`, which the catch block re-throws. -/
def expectToolCallError (st : TestClientState) (name : String) (params : Option JValue)
    (proto : Except String ToolCallResult) : Except MCPTestError CaughtError :=
  let tryBlock : Except MCPTestError CaughtError :=
    match callTool st name params proto with
    | .ok result =>
        if isErrorTruthy result then
          .ok (.made "Tool returned error as expected")
        else
          .error (AssertionError.make
            ("Expected tool " ++ sq ++ name ++ sq ++ " to fail, but it succeeded")
            { ErrorContext.empty with
                toolName := some name
                params := some params
                result := some result })
    | .error e => .error e
  match tryBlock with
  | .ok v => .ok v
  | .error e => if e.name = "AssertionError" then .error e else .ok (.caught e)

/-- `DEFAULT_EXCLUDE_FIELDS` from `matchers/snapshot.ts`. -/
def DEFAULT_EXCLUDE_FIELDS : List String :=
  ["timestamp", "requestId", "_meta.timestamp", "serverInfo.startedAt",
   "serverInfo.uptime", "executionTime", "cacheKey"]

mutual

/-- `excludeProperties` from `matchers/snapshot.ts`: primitives pass through,
arrays map element-wise with the same paths, objects drop a key when some path
equals the key or has the key as its first dot-separated segment, and otherwise
recurse with the paths scoped under `key.`. -/
def excludeProperties (excludePaths : List String) : JValue → JValue
  | .null => .null
  | .bool b => .bool b
  | .num n => .num n
  | .str s => .str s
  | .arr items => .arr (excludeList excludePaths items)
  | .obj fields => .obj (excludeFields excludePaths fields)

/-- Element-wise recursion of `excludeProperties` over an array. -/
def excludeList (excludePaths : List String) : List JValue → List JValue
  | [] => []
  | v :: rest => excludeProperties excludePaths v :: excludeList excludePaths rest

/-- Entry-wise recursion of `excludeProperties` over an object's fields. -/
def excludeFields (excludePaths : List String) : List (String × JValue) → List (String × JValue)
  | [] => []
  | (key, value) :: rest =>
      if excludePaths.any (fun path =>
          decide ((splitDot path).head? = some key) || decide (path = key)) then
        excludeFields excludePaths rest
      else
        (key, excludeProperties
          ((excludePaths.filter (fun p => startsWithStr p (key ++ "."))).map
            (fun p => dropStr p (key.length + 1))) value) :: excludeFields excludePaths rest

end

/-- `normalizeMCPResponse`: default exclusions plus the caller's extra paths. -/
def normalizeMCPResponse (value : JValue) (extraExclude : Option (List String)) : JValue :=
  excludeProperties (DEFAULT_EXCLUDE_FIELDS ++ extraExclude.getD []) value

/-- Error code of a façade outcome, when it failed. -/
def errorCodeOf {α : Type} : Except MCPTestError α → Option MCPTestErrorCode
  | .error e => some e.code
  | .ok _ => none

/-- Error message of a façade outcome, when it failed. -/
def errorMessageOf {α : Type} : Except MCPTestError α → Option String
  | .error e => some e.message
  | .ok _ => none


/-- A concrete connected state (as produced by a successful `connect()`). -/
def connectedState : TestClientState :=
  { client := some (), transport := some (), initialized := true
    serverInfo := some { name := "test-server", version := "1.0.0" }
    serverCapabilities := none }

/-- A concrete tool result flagged `isError: true`. -/
def errResult : ToolCallResult :=
  { content := [{ type := "text", text := some "boom", data := none, mimeType := none }]
    isError := some true }

/-- The error `ensureConnected()` raises on a disconnected client. -/
def notConnectedError : MCPTestError :=
  ConnectionError.make "Not connected to server. Call connect() first." ErrorContext.empty

/-- The error `connect()` raises when a session already exists. -/
def alreadyConnectedError : MCPTestError :=
  ConnectionError.make "Already connected to server" ErrorContext.empty

/-- `needle` occurs as a contiguous substring of `hay`. -/
def containsStr (hay needle : String) : Prop :=
  needle.data <:+: hay.data

theorem containsStr_self (s : String) : containsStr s s :=
  ⟨[], [], by simp⟩

theorem containsStr_suffix (pre mid : String) : containsStr (pre ++ mid) mid :=
  ⟨pre.data, [], by simp⟩

theorem containsStr_appendRight (hay b needle : String) (h : containsStr hay needle) :
    containsStr (hay ++ b) needle := by
  obtain ⟨s, t, hst⟩ := h
  refine ⟨s, t ++ b.data, ?_⟩
  have hd : (hay ++ b).data = hay.data ++ b.data := by simp
  rw [hd, ← hst]
  simp

theorem containsStr_appendLeft (a hay needle : String) (h : containsStr hay needle) :
    containsStr (a ++ hay) needle := by
  obtain ⟨s, t, hst⟩ := h
  refine ⟨a.data ++ s, t, ?_⟩
  have hd : (a ++ hay).data = a.data ++ hay.data := by simp
  rw [hd, ← hst]
  simp

theorem containsStr_intro (pre mid suf : String) : containsStr (pre ++ mid ++ suf) mid :=
  containsStr_appendRight _ _ _ (containsStr_suffix pre mid)

theorem joinComma_contains (l : List String) (x : String) (hx : x ∈ l) :
    containsStr (joinComma l) x := by
  induction l with
  | nil => cases hx
  | cons a rest ih =>
      cases rest with
      | nil =>
          have hxa : x = a := by simpa using hx
          subst hxa
          exact containsStr_self x
      | cons b rest2 =>
          rcases List.mem_cons.mp hx with hxa | hmem
          · subst hxa
            exact containsStr_appendRight _ _ _ (containsStr_appendRight _ _ _ (containsStr_self x))
          · exact containsStr_appendLeft (a ++ ", ") (joinComma (b :: rest2)) x (ih hmem)

theorem ensureConnected_of_connected (st : TestClientState) (h : isConnected st = true) :
    ensureConnected st = .ok () := by
  unfold isConnected at h
  rw [Bool.and_eq_true] at h
  obtain ⟨h1, h2⟩ := h
  have h3 : st.client.isNone = false := by
    cases hc : st.client with
    | none => rw [hc] at h1; simp at h1
    | some _ => rfl
  unfold ensureConnected
  rw [h3, h2]
  rfl

theorem ensureConnected_of_not_connected (st : TestClientState) (h : isConnected st = false) :
    ensureConnected st = .error notConnectedError := by
  unfold isConnected at h
  cases hc : st.client with
  | none => simp [ensureConnected, hc, notConnectedError]
  | some u =>
      rw [hc] at h
      simp at h
      simp [ensureConnected, hc, h, notConnectedError]

theorem ensureConnected_error_shape (st : TestClientState) (e : MCPTestError)
    (h : ensureConnected st = .error e) : e = notConnectedError := by
  unfold ensureConnected at h
  split at h
  · rw [show notConnectedError = ConnectionError.make "Not connected to server. Call connect() first." ErrorContext.empty from rfl]
    exact (Except.error.inj h).symm
  · cases h

theorem callTool_ok_isError (st : TestClientState) (name : String) (params : Option JValue)
    (proto : Except String ToolCallResult) (r : ToolCallResult)
    (hr : callTool st name params proto = .ok r) : isErrorTruthy r = false := by
  unfold callTool at hr
  cases hec : ensureConnected st with
  | error e => rw [hec] at hr; cases hr
  | ok u =>
      rw [hec] at hr
      cases proto with
      | ok res =>
          by_cases hie : isErrorTruthy res = true
          · simp [hie] at hr
          · have hie2 : isErrorTruthy res = false := by simpa using hie
            simp [hie2] at hr
            rw [← hr]
            exact hie2
      | error m => simp at hr

theorem callTool_error_code (st : TestClientState) (name : String) (params : Option JValue)
    (proto : Except String ToolCallResult) (e : MCPTestError)
    (hr : callTool st name params proto = .error e) :
    e.code = .CONNECTION_FAILED ∨ e.code = .TOOL_CALL_FAILED := by
  unfold callTool at hr
  cases hec : ensureConnected st with
  | error e2 =>
      rw [hec] at hr
      have he2 : e2 = e := by simpa using hr
      have := ensureConnected_error_shape st e2 hec
      subst he2
      rw [this]
      left
      rfl
  | ok u =>
      rw [hec] at hr
      cases proto with
      | ok res =>
          by_cases hie : isErrorTruthy res = true
          · simp [hie] at hr
            rw [← hr]
            right
            rfl
          · have hie2 : isErrorTruthy res = false := by simpa using hie
            simp [hie2] at hr
      | error m =>
          simp at hr
          rw [← hr]
          right
          rfl
/-- C1: on a connected client, `callTool` never returns a result whose `isError`
flag is truthy: a result flagged `isError: true` is converted into a thrown
`ToolCallError` (code `TOOL_CALL_FAILED`) carrying the tool name and the result
as context, and a protocol-layer rejection is wrapped as a `ToolCallError` with
the tool name and the original message attached. -/
theorem callTool_isError_never_passes (st : TestClientState) (h : isConnected st = true)
    (name : String) (params : Option JValue) (proto : Except String ToolCallResult) :
    (∀ r, callTool st name params proto = .ok r → isErrorTruthy r = false)
    ∧ (∀ r, proto = .ok r → isErrorTruthy r = true →
        ∃ e, callTool st name params proto = .error e ∧
          e.code = .TOOL_CALL_FAILED ∧ e.name = "ToolCallError" ∧
          e.context.toolName = some name ∧ e.context.result = some r ∧
          containsStr e.message name)
    ∧ (∀ msg, proto = .error msg →
        ∃ e, callTool st name params proto = .error e ∧
          e.code = .TOOL_CALL_FAILED ∧ e.name = "ToolCallError" ∧
          e.context.toolName = some name ∧ e.context.originalError = some msg ∧
          containsStr e.message name) := by
  have hok := ensureConnected_of_connected st h
  refine ⟨fun r hr => callTool_ok_isError st name params proto r hr, ?_, ?_⟩
  · intro r hproto hie
    subst hproto
    refine ⟨ToolCallError.make name "Tool returned an error"
      { ErrorContext.empty with result := some r }, ?_, rfl, rfl, rfl, rfl, ?_⟩
    · unfold callTool
      rw [hok]
      simp [hie]
    · exact containsStr_appendRight _ _ _ (containsStr_appendRight _ _ _
        (containsStr_appendRight _ _ _ (containsStr_suffix _ _)))
  · intro msg hproto
    subst hproto
    refine ⟨ToolCallError.make name "Tool call failed"
      { ErrorContext.empty with params := some params, originalError := some msg },
      ?_, rfl, rfl, rfl, rfl, ?_⟩
    · unfold callTool
      rw [hok]
    · exact containsStr_appendRight _ _ _ (containsStr_appendRight _ _ _
        (containsStr_appendRight _ _ _ (containsStr_suffix _ _)))

/-- Witness for C1 at a concrete connected state and an `isError: true` result. -/
theorem callTool_isError_never_passes_witness :
    ∃ e, callTool connectedState "echo" none (.ok errResult) = .error e ∧
      e.code = .TOOL_CALL_FAILED ∧ e.context.toolName = some "echo" ∧
      e.context.result = some errResult := by
  obtain ⟨-, h2, -⟩ := callTool_isError_never_passes connectedState rfl "echo" none (.ok errResult)
  obtain ⟨e, he, hc, -, hn, hres, -⟩ := h2 errResult rfl rfl
  exact ⟨e, he, hc, hn, hres⟩

/-- C2 counterexample: a façade method invoked on a disconnected client fails
with error code `CONNECTION_FAILED`, not `NOT_CONNECTED` as the claim states. -/
theorem facade_notConnected_code_counterexample :
    errorCodeOf (listTools initialState (.ok [])) = some MCPTestErrorCode.CONNECTION_FAILED
    ∧ some MCPTestErrorCode.CONNECTION_FAILED ≠ some MCPTestErrorCode.NOT_CONNECTED :=
  ⟨rfl, by decide⟩

/-- C2 (amended): every façade method on a client with no live session fails with
the same `ConnectionError` — message "Not connected to server. Call connect()
first.", code `CONNECTION_FAILED` — independently of whatever the protocol layer
would have answered (so no request is issued). -/
theorem facade_notConnected_amended (st : TestClientState) (h : isConnected st = false)
    (name uri pname : String) (params : Option JValue)
    (pt : Except String (List Tool)) (pc : Except String ToolCallResult)
    (pr : Except String (List Resource)) (prc : Except String ResourceContent)
    (pp : Except String (List Prompt)) (ppr : Except String PromptResult) :
    listTools st pt = .error notConnectedError
    ∧ callTool st name params pc = .error notConnectedError
    ∧ listResources st pr = .error notConnectedError
    ∧ readResource st uri prc = .error notConnectedError
    ∧ listPrompts st pp = .error notConnectedError
    ∧ getPrompt st pname ppr = .error notConnectedError
    ∧ notConnectedError.message = "Not connected to server. Call connect() first."
    ∧ notConnectedError.code = .CONNECTION_FAILED := by
  have he := ensureConnected_of_not_connected st h
  refine ⟨?_, ?_, ?_, ?_, ?_, ?_, rfl, rfl⟩
  · unfold listTools; rw [he]
  · unfold callTool; rw [he]
  · unfold listResources; rw [he]
  · unfold readResource; rw [he]
  · unfold listPrompts; rw [he]
  · unfold getPrompt; rw [he]

/-- Witness for the amended C2 at the fresh (disconnected) state. -/
theorem facade_notConnected_amended_witness :
    listTools initialState (.ok []) = .error notConnectedError
    ∧ callTool initialState "echo" none (.ok errResult) = .error notConnectedError := by
  obtain ⟨h1, h2, -⟩ := facade_notConnected_amended initialState rfl "echo" "file://x" "greet"
    none (.ok []) (.ok errResult) (.ok []) (.ok .null) (.ok []) (.ok .null)
  exact ⟨h1, h2⟩

/-- C5: `disconnect()` never raises, clears every state field (even when the
session close throws), leaves the client disconnected, and a second consecutive
`disconnect()` behaves identically. -/
theorem disconnect_idempotent_never_throws (st : TestClientState)
    (closeOutcome closeOutcome2 : Except String Unit) (s : String) :
    disconnect st closeOutcome = (initialState, .ok ())
    ∧ isConnected (disconnect st closeOutcome).1 = false
    ∧ getServerInfo (disconnect st closeOutcome).1 = none
    ∧ getServerCapabilities (disconnect st closeOutcome).1 = none
    ∧ disconnect (disconnect st closeOutcome).1 closeOutcome2 = (initialState, .ok ())
    ∧ disconnect st (.error s) = (initialState, .ok ()) :=
  ⟨rfl, rfl, rfl, rfl, rfl, rfl⟩

theorem alreadyConnected_message_contains :
    containsStr alreadyConnectedError.message "Already connected" := by
  have hmsg : alreadyConnectedError.message = "Already connected" ++ " to server" := rfl
  rw [hmsg]
  exact containsStr_appendRight _ _ _ (containsStr_self _)

/-- C4: when a session already exists, `connect()` rejects with the
"Already connected to server" error without touching the state, independently of
any outcome the transport or handshake could have produced; consequently a
second `connect()` right after a successful one rejects the same way. -/
theorem connect_single_session (st : TestClientState) (cfg : MCPTestClientConfig)
    (outcome : ConnectOutcome) (closeOutcome : Except String Unit)
    (h : st.client.isSome = true) :
    (connect st cfg outcome closeOutcome).1 = st
    ∧ (connect st cfg outcome closeOutcome).2 = .error alreadyConnectedError
    ∧ containsStr alreadyConnectedError.message "Already connected"
    ∧ (∀ (st0 : TestClientState) (sv : Option ServerInfo) (caps : Option JValue)
        (co1 co2 : Except String Unit) (out2 : ConnectOutcome),
        (connect st0 cfg (.success sv caps) co1).2 = .ok () →
        ∃ e, (connect (connect st0 cfg (.success sv caps) co1).1 cfg out2 co2).2 = .error e ∧
          containsStr e.message "Already connected") := by
  refine ⟨?_, ?_, alreadyConnected_message_contains, ?_⟩
  · simp [connect, h]
  · simp [connect, h, alreadyConnectedError]
  · intro st0 sv caps co1 co2 out2 hok2
    by_cases h0 : st0.client.isSome = true
    · simp [connect, h0] at hok2
    · have h0f : st0.client.isSome = false := by simpa using h0
      set stc := (connect st0 cfg (.success sv caps) co1).1 with hstc
      have h1 : stc.client = some () := by
        rw [hstc]
        simp [connect, h0f]
      have h1s : stc.client.isSome = true := by rw [h1]; rfl
      refine ⟨alreadyConnectedError, ?_, alreadyConnected_message_contains⟩
      show (connect stc cfg out2 co2).2 = .error alreadyConnectedError
      unfold connect
      rw [h1s]
      simp [alreadyConnectedError]

/-- Witness for C4 at a concrete connected state. -/
theorem connect_single_session_witness :
    (connect connectedState { command := "node", args := ["server.js"] }
      (.success none none) (.ok ())).2 = .error alreadyConnectedError := by
  obtain ⟨-, h2, -, -⟩ := connect_single_session connectedState
    { command := "node", args := ["server.js"] } (.success none none) (.ok ()) rfl
  exact h2

/-- C3: when `connect()` fails after the initial state check, the client ends up
fully disconnected — `isConnected` false, server info and capabilities null, all
handles dropped — the raised error is a single classified `MCPTestError`, and
the outcome does not depend on whether the internal cleanup's close throws. -/
theorem connect_failure_resets (st : TestClientState) (h : st.client = none)
    (cfg : MCPTestClientConfig) (err : JSError) (closeOutcome : Except String Unit) :
    (connect st cfg (.failure err) closeOutcome).1 = initialState
    ∧ isConnected (connect st cfg (.failure err) closeOutcome).1 = false
    ∧ getServerInfo (connect st cfg (.failure err) closeOutcome).1 = none
    ∧ getServerCapabilities (connect st cfg (.failure err) closeOutcome).1 = none
    ∧ (∃ e, (connect st cfg (.failure err) closeOutcome).2 = .error e)
    ∧ connect st cfg (.failure err) closeOutcome = connect st cfg (.failure err) (.ok ()) := by
  have hs : st.client.isSome = false := by rw [h]; rfl
  cases err with
  | mcp e =>
      by_cases hn : e.name = "ConnectionError" ∨ e.name = "InitializationError" <;>
        simp [connect, hs, cleanup, initialState, isConnected, getServerInfo,
          getServerCapabilities, hn]
  | plain m =>
      simp [connect, hs, cleanup, initialState, isConnected, getServerInfo,
        getServerCapabilities]

/-- Witness for C3: a raw spawn failure with a throwing close leaves the fresh state. -/
theorem connect_failure_resets_witness :
    (connect initialState { command := "node", args := ["server.js"] }
        (.failure (.plain "spawn failed")) (.error "close failed")).1 = initialState
    ∧ ∃ e, (connect initialState { command := "node", args := ["server.js"] }
        (.failure (.plain "spawn failed")) (.error "close failed")).2 = .error e := by
  obtain ⟨h1, -, -, -, h5, -⟩ := connect_failure_resets initialState rfl
    { command := "node", args := ["server.js"] } (.plain "spawn failed") (.error "close failed")
  exact ⟨h1, h5⟩

theorem find?_append_first {α : Type} (p : α → Bool) (pre post : List α) (t : α)
    (hp : ∀ x ∈ pre, p x = false) (ht : p t = true) :
    List.find? p (pre ++ t :: post) = some t := by
  induction pre with
  | nil => simpa using List.find?_cons_of_pos post ht
  | cons a rest ih =>
      have ha : p a = false := hp a (by simp)
      rw [List.cons_append, List.find?_cons_of_neg _ (by simp [ha])]
      exact ih (fun x hx => hp x (by simp [hx]))

/-- C6: `expectToolExists` returns the first tool whose name matches exactly; when
none matches it raises a `TOOL_NOT_FOUND` error whose message contains the
searched name and every available tool name joined with `', '` in declaration
order, or the literal `none` when the list is empty. -/
theorem expectToolExists_spec (st : TestClientState) (h : isConnected st = true)
    (name : String) (tools : List Tool) :
    (∀ pre t post, tools = pre ++ t :: post → t.name = name →
        (∀ t2 ∈ pre, t2.name ≠ name) →
        expectToolExists st (.ok tools) name = .ok t)
    ∧ ((∀ t ∈ tools, t.name ≠ name) →
        ∃ e, expectToolExists st (.ok tools) name = .error e ∧
          e.code = .TOOL_NOT_FOUND ∧ e.name = "ToolNotFoundError" ∧
          e.context.availableTools = some (tools.map (fun t => t.name)) ∧
          e.message = "Tool " ++ sq ++ name ++ sq ++ " not found. Available tools: "
            ++ (if tools.length > 0 then joinComma (tools.map (fun t => t.name)) else "none") ∧
          containsStr e.message name ∧
          (∀ t ∈ tools, containsStr e.message t.name) ∧
          (tools = [] →
            e.message = "Tool " ++ sq ++ name ++ sq ++ " not found. Available tools: none")) := by
  have hok := ensureConnected_of_connected st h
  have hlist : listTools st (.ok tools) = .ok tools := by
    unfold listTools
    rw [hok]
  have hunfold : expectToolExists st (.ok tools) name =
      (match tools.find? (fun t => decide (t.name = name)) with
       | some tool => .ok tool
       | none => .error (ToolNotFoundError.make name (tools.map (fun t => t.name))
           ErrorContext.empty)) := by
    unfold expectToolExists
    rw [hlist]
  constructor
  · intro pre t post htools htname hpre
    rw [hunfold]
    subst htools
    rw [find?_append_first (fun t2 => decide (t2.name = name)) pre post t
      (fun x hx => by simp [hpre x hx]) (by simp [htname])]
  · intro hall
    have hfind : tools.find? (fun t => decide (t.name = name)) = none := by
      rw [List.find?_eq_none]
      intro x hx
      simp [hall x hx]
    rw [hunfold, hfind]
    have hlen : (tools.map (fun t => t.name)).length = tools.length := List.length_map _ _
    have hmsg : (ToolNotFoundError.make name (tools.map (fun t => t.name))
        ErrorContext.empty).message
        = "Tool " ++ sq ++ name ++ sq ++ " not found. Available tools: "
          ++ (if tools.length > 0 then joinComma (tools.map (fun t => t.name)) else "none") := by
      unfold ToolNotFoundError.make
      rw [hlen]
    refine ⟨_, rfl, rfl, rfl, rfl, hmsg, ?_, ?_, ?_⟩
    · rw [hmsg]
      exact containsStr_appendRight _ _ _ (containsStr_appendRight _ _ _
        (containsStr_appendRight _ _ _ (containsStr_suffix _ _)))
    · intro t ht
      rw [hmsg]
      have hpos : tools.length > 0 := List.length_pos.mpr (by rintro rfl; cases ht)
      rw [if_pos hpos]
      exact containsStr_appendLeft _ _ _
        (joinComma_contains _ _ (List.mem_map_of_mem (fun t => t.name) ht))
    · rintro rfl
      rw [hmsg, if_neg (by decide), String.append_assoc]
      rfl

/-- Witness for C6: searching `missing` among `echo, add` yields the enumerating error. -/
theorem expectToolExists_spec_witness :
    ∃ e, expectToolExists connectedState
        (.ok [{ name := "echo", description := none, inputSchema := .obj [] },
              { name := "add", description := none, inputSchema := .obj [] }]) "missing"
      = .error e ∧ e.code = .TOOL_NOT_FOUND ∧
      containsStr e.message "missing" ∧ containsStr e.message "echo" ∧
      containsStr e.message "add" := by
  obtain ⟨-, h2⟩ := expectToolExists_spec connectedState rfl "missing"
    [{ name := "echo", description := none, inputSchema := .obj [] },
     { name := "add", description := none, inputSchema := .obj [] }]
  obtain ⟨e, he, hcode, -, -, -, hm, hallc, -⟩ := h2 (by
    intro t ht
    rcases List.mem_cons.mp ht with h1 | h1
    · rw [h1]; decide
    · rcases List.mem_cons.mp h1 with h2 | h2
      · rw [h2]; decide
      · cases h2)
  refine ⟨e, he, hcode, hm, ?_, ?_⟩
  · exact hallc { name := "echo", description := none, inputSchema := .obj [] }
      (List.mem_cons_self _ _)
  · exact hallc { name := "add", description := none, inputSchema := .obj [] }
      (List.mem_cons_of_mem _ (List.mem_cons_self _ _))

/-- A JSON-looking text payload (the spec scenario `'\x7b"key":"value"\x7d'`). -/
def jsonText : String := "\x7b\"key\":\"value\"\x7d"

/-- A stand-in for `JSON.parse` that recognizes exactly `jsonText`. -/
def parseStub : String → Option JValue :=
  fun s => if s = jsonText then some (.obj [("key", .str "value")]) else none

/-- A successful single-text-item result whose text is `jsonText`. -/
def okJsonResult : ToolCallResult :=
  { content := [{ type := "text", text := some jsonText, data := none, mimeType := none }]
    isError := none }

/-- C7: on a successful tool result, `expectToolCallSuccess` extracts the payload:
a single text content item is JSON-parsed exactly when its text starts with a
brace or bracket, returning the parsed value on success and the raw text on
parse failure or when the sniff fails; any other shape returns the whole result. -/
theorem expectToolCallSuccess_payload (st : TestClientState) (h : isConnected st = true)
    (name : String) (params : Option JValue) (r : ToolCallResult)
    (hr : isErrorTruthy r = false) (jsonParse : String → Option JValue) :
    (∀ item, r.content = [item] → item.type = "text" →
        (startsWithChar (item.text.getD "") lbrace
          || startsWithChar (item.text.getD "") (Char.ofNat 91)) = true →
        (∀ v, jsonParse (item.text.getD "") = some v →
            expectToolCallSuccess st name params (.ok r) jsonParse = .ok (.json v))
        ∧ (jsonParse (item.text.getD "") = none →
            expectToolCallSuccess st name params (.ok r) jsonParse
              = .ok (.text (item.text.getD ""))))
    ∧ (∀ item, r.content = [item] → item.type = "text" →
        (startsWithChar (item.text.getD "") lbrace
          || startsWithChar (item.text.getD "") (Char.ofNat 91)) = false →
        expectToolCallSuccess st name params (.ok r) jsonParse
          = .ok (.text (item.text.getD "")))
    ∧ ((∀ item, r.content = [item] → item.type ≠ "text") →
        expectToolCallSuccess st name params (.ok r) jsonParse = .ok (.whole r)) := by
  have hok := ensureConnected_of_connected st h
  have hcall : callTool st name params (.ok r) = .ok r := by
    unfold callTool
    rw [hok]
    simp [hr]
  have hbody : expectToolCallSuccess st name params (.ok r) jsonParse =
      (match r.content with
       | [item] =>
           if item.type = "text" then
             let text := item.text.getD ""
             if startsWithChar text lbrace || startsWithChar text (Char.ofNat 91) then
               match jsonParse text with
               | some v => .ok (.json v)
               | none => .ok (.text text)
             else
               .ok (.text text)
           else
             .ok (.whole r)
       | _ => .ok (.whole r)) := by
    unfold expectToolCallSuccess
    rw [hcall]
    simp [hr]
  refine ⟨?_, ?_, ?_⟩
  · intro item hc ht hsw
    constructor
    · intro v hv
      rw [hbody, hc]
      simp [ht, hsw, hv]
    · intro hv
      rw [hbody, hc]
      simp [ht, hsw, hv]
  · intro item hc ht hsw
    rw [hbody, hc]
    simp [ht, hsw]
  · intro hshape
    rcases hc : r.content with - | ⟨item, rest⟩
    · rw [hbody, hc]
    · cases rest with
      | nil =>
          have ht := hshape item hc
          rw [hbody, hc]
          simp [ht]
      | cons b r2 =>
          rw [hbody, hc]

/-- Witness for C7: the JSON-looking text is parsed into the object. -/
theorem expectToolCallSuccess_payload_witness :
    expectToolCallSuccess connectedState "echo" none (.ok okJsonResult) parseStub
      = .ok (.json (.obj [("key", .str "value")])) := by
  obtain ⟨h1, -, -⟩ := expectToolCallSuccess_payload connectedState rfl "echo" none
    okJsonResult rfl parseStub
  exact (h1 { type := "text", text := some jsonText, data := none, mimeType := none }
    rfl rfl (by decide)).1 _ rfl

theorem expectToolCallSuccess_error_source (st : TestClientState) (name : String)
    (params : Option JValue) (proto : Except String ToolCallResult)
    (jsonParse : String → Option JValue) (e : MCPTestError)
    (he : expectToolCallSuccess st name params proto jsonParse = .error e) :
    callTool st name params proto = .error e := by
  unfold expectToolCallSuccess at he
  cases hcall : callTool st name params proto with
  | error e2 =>
      rw [hcall] at he
      have h3 : e2 = e := by simpa using he
      subst h3
      rfl
  | ok res =>
      rw [hcall] at he
      have hie : isErrorTruthy res = false := callTool_ok_isError st name params proto res hcall
      rcases hc : res.content with - | ⟨item, rest⟩
      · simp [hie, hc] at he
      · cases rest with
        | nil =>
            by_cases ht : item.type = "text"
            · by_cases hsw : (startsWithChar (item.text.getD "") lbrace
                  || startsWithChar (item.text.getD "") (Char.ofNat 91)) = true
              · cases hj : jsonParse (item.text.getD "") <;> simp [hie, hc, ht, hsw, hj] at he
              · have hsw2 : (startsWithChar (item.text.getD "") lbrace
                    || startsWithChar (item.text.getD "") (Char.ofNat 91)) = false := by
                  simpa using hsw
                simp [hie, hc, ht, hsw2] at he
            · simp [hie, hc, ht] at he
        | cons b r2 => simp [hie, hc] at he

/-- C8 counterexample: when the server result carries `isError: true`, the error
surfaced by `expectToolCallSuccess` has code `TOOL_CALL_FAILED`, not the
`ASSERTION_FAILED` the claim states. -/
theorem expectToolCallSuccess_assertion_counterexample :
    errorCodeOf (expectToolCallSuccess connectedState "echo" none (.ok errResult)
        (fun _ => none))
      = some MCPTestErrorCode.TOOL_CALL_FAILED
    ∧ some MCPTestErrorCode.TOOL_CALL_FAILED ≠ some MCPTestErrorCode.ASSERTION_FAILED :=
  ⟨rfl, by decide⟩

/-- C8 (amended): when the server result carries `isError: true`, the error that
reaches the caller of `expectToolCallSuccess` is the `ToolCallError` raised
inside `callTool` — code `TOOL_CALL_FAILED`, tool name and result in context —
and no execution of `expectToolCallSuccess` ever surfaces an `ASSERTION_FAILED`
error (the assertion branch is unreachable). -/
theorem expectToolCallSuccess_toolCallError_amended (st : TestClientState)
    (h : isConnected st = true) (name : String) (params : Option JValue)
    (r : ToolCallResult) (hr : isErrorTruthy r = true)
    (jsonParse : String → Option JValue) :
    (∃ e, expectToolCallSuccess st name params (.ok r) jsonParse = .error e ∧
      e.code = .TOOL_CALL_FAILED ∧ e.name = "ToolCallError" ∧
      e.context.toolName = some name ∧ e.context.result = some r)
    ∧ (∀ (st2 : TestClientState) (name2 : String) (params2 : Option JValue)
        (proto2 : Except String ToolCallResult) (jp2 : String → Option JValue),
        errorCodeOf (expectToolCallSuccess st2 name2 params2 proto2 jp2)
          ≠ some MCPTestErrorCode.ASSERTION_FAILED) := by
  have hok := ensureConnected_of_connected st h
  constructor
  · refine ⟨ToolCallError.make name "Tool returned an error"
      { ErrorContext.empty with result := some r }, ?_, rfl, rfl, rfl, rfl⟩
    have hcall : callTool st name params (.ok r)
        = .error (ToolCallError.make name "Tool returned an error"
          { ErrorContext.empty with result := some r }) := by
      unfold callTool
      rw [hok]
      simp [hr]
    unfold expectToolCallSuccess
    rw [hcall]
  · intro st2 name2 params2 proto2 jp2
    cases hres : expectToolCallSuccess st2 name2 params2 proto2 jp2 with
    | ok v => simp [errorCodeOf]
    | error e =>
        have hsrc := expectToolCallSuccess_error_source st2 name2 params2 proto2 jp2 e hres
        have hcode := callTool_error_code st2 name2 params2 proto2 e hsrc
        rcases hcode with hcode | hcode <;> simp [errorCodeOf, hcode]

/-- Witness for the amended C8 at a concrete `isError: true` result. -/
theorem expectToolCallSuccess_toolCallError_amended_witness :
    ∃ e, expectToolCallSuccess connectedState "echo" none (.ok errResult) (fun _ => none)
      = .error e ∧ e.code = .TOOL_CALL_FAILED := by
  obtain ⟨⟨e, he, hc, -⟩, -⟩ := expectToolCallSuccess_toolCallError_amended connectedState
    rfl "echo" none errResult rfl (fun _ => none)
  exact ⟨e, he, hc⟩

/-- C9 (code evaluation): `excludeProperties` removes the entire parent field
named by the first segment of a nested or glob exclusion path, instead of only
the named sub-field; with the default exclusions, the whole `serverInfo` object
disappears rather than just `serverInfo.startedAt` / `serverInfo.uptime`. -/
theorem excludeProperties_drops_parent_field :
    excludeProperties ["a.b"]
        (.obj [("a", .obj [("b", .num 1), ("c", .num 2)]), ("d", .num 3)])
      = .obj [("d", .num 3)]
    ∧ excludeProperties ["a.*.b"]
        (.obj [("a", .arr [.obj [("b", .num 1), ("c", .num 2)]]), ("d", .num 3)])
      = .obj [("d", .num 3)]
    ∧ normalizeMCPResponse
        (.obj [("serverInfo", .obj [("name", .str "test-server"), ("startedAt", .str "t0"),
                ("uptime", .num 5)]),
               ("value", .str "keep")]) none
      = .obj [("value", .str "keep")] :=
  ⟨rfl, rfl, rfl⟩

/-- C10: on a client with no live session, `expectToolCallError` does not reject:
the `ConnectionError` thrown by `callTool` is caught by the helper's catch-all
branch (its name is not `AssertionError`) and returned as the successful result. -/
theorem expectToolCallError_disconnected (st : TestClientState)
    (h : isConnected st = false) (name : String) (params : Option JValue)
    (proto : Except String ToolCallResult) :
    expectToolCallError st name params proto = .ok (.caught notConnectedError)
    ∧ notConnectedError.code = .CONNECTION_FAILED
    ∧ notConnectedError.name ≠ "AssertionError"
    ∧ notConnectedError.message = "Not connected to server. Call connect() first." := by
  have he := ensureConnected_of_not_connected st h
  have hcall : callTool st name params proto = .error notConnectedError := by
    unfold callTool
    rw [he]
  refine ⟨?_, rfl, by decide, rfl⟩
  have hbody : expectToolCallError st name params proto =
      (if notConnectedError.name = "AssertionError" then .error notConnectedError
       else .ok (.caught notConnectedError)) := by
    unfold expectToolCallError
    rw [hcall]
  rw [hbody, if_neg (by decide)]

/-- Witness for C10 at the fresh (disconnected) state. -/
theorem expectToolCallError_disconnected_witness :
    expectToolCallError initialState "echo" none (.ok errResult)
      = .ok (.caught notConnectedError) :=
  (expectToolCallError_disconnected initialState rfl "echo" none (.ok errResult)).1

end MCPDevKit
